import Mathlib

/-!
Verification development for the DCF valuation pipeline
(`dcf_dashboard/src`: data_loader, metrics, assumptions, forecast, dcf).

Modelling conventions:
* Floating-point numbers are modelled as rationals (`ℚ`); the one genuinely
  real-valued operation, the fractional power inside the revenue CAGR, is
  modelled over `ℝ` with `Real.rpow`.
* A pandas cell is `Option ℚ` (`none` = NaN / missing); NaN propagates
  through arithmetic.
* A DataFrame is a `Frame`: a fiscal-year index together with an
  association list of named columns (pandas columns are unique and keep
  insertion order).
* A Python function that can raise returns an `Option` result; `none`
  means an exception escaped.
* The assumption audit log (`log_assumption`) is modelled as an explicit
  list of messages returned next to the result.
-/

namespace DCF

/-- NaN-propagating addition of cells. -/
def optAdd : Option ℚ → Option ℚ → Option ℚ
  | some a, some b => some (a + b)
  | _, _ => none

/-- NaN-propagating subtraction of cells. -/
def optSub : Option ℚ → Option ℚ → Option ℚ
  | some a, some b => some (a - b)
  | _, _ => none

/-- NaN-propagating division of cells. -/
def optDiv : Option ℚ → Option ℚ → Option ℚ
  | some a, some b => some (a / b)
  | _, _ => none

/-- Elementwise sum of two aligned series. -/
def zipAdd (a b : List (Option ℚ)) : List (Option ℚ) := List.zipWith optAdd a b

/-- Elementwise difference of two aligned series. -/
def zipSub (a b : List (Option ℚ)) : List (Option ℚ) := List.zipWith optSub a b

/-- Elementwise quotient of two aligned series. -/
def zipDiv (a b : List (Option ℚ)) : List (Option ℚ) := List.zipWith optDiv a b

/-!
## Valuation engine (`dcf.py`)

The forecast table enters the valuation functions only through its `fcff`
column, which we model as the list of yearly free cash flows to the firm,
ordered by forecast year.
-/

/-- `ValuationInputs` from `dcf.py`: market/capital-structure parameters.
`equity_value` and `net_debt` are optional (`None` in the source). -/
structure ValuationInputs where
  rf : ℚ
  erp : ℚ
  beta : ℚ
  cost_of_debt : ℚ
  tax_rate : ℚ
  equity_value : Option ℚ := none
  net_debt : Option ℚ := none
deriving Repr, DecidableEq

/-- `compute_wacc` from `dcf.py`. -/
def compute_wacc (inp : ValuationInputs) (equity_weight debt_weight : ℚ) : ℚ :=
  equity_weight * (inp.rf + inp.beta * inp.erp)
    + debt_weight * (inp.cost_of_debt * (1 - inp.tax_rate))

/-- `discount_cashflows` from `dcf.py`: Σ_t fcff_t / (1+wacc)^t, t = 1..N. -/
def discount_cashflows (fcff : List ℚ) (wacc : ℚ) : ℚ :=
  (fcff.enum.map (fun p => p.2 / (1 + wacc) ^ (p.1 + 1))).sum

/-- `terminal_gordon` from `dcf.py`.  Raises (returns `none`) when
`wacc ≤ g`; also raises (IndexError on `iloc[-1]`) when the forecast is
empty.  Otherwise returns `fcff_last * (1+g) / (wacc-g)` discounted back
`N` periods, `N` the number of forecast rows. -/
def terminal_gordon (fcff : List ℚ) (wacc g : ℚ) : Option ℚ :=
  if wacc ≤ g then none
  else
    match fcff.getLast? with
    | none => none
    | some fcff_last =>
        some (fcff_last * (1 + g) / (wacc - g) / (1 + wacc) ^ fcff.length)

/-!
## Assumptions (`assumptions.py`) and forecast engine (`forecast.py`)
-/

/-- `Assumptions` dataclass from `assumptions.py`. -/
structure Assumptions where
  years : ℕ
  revenue_growth : ℚ
  ebit_margin : ℚ
  tax_rate : ℚ
  da_pct_revenue : ℚ
  capex_pct_revenue : ℚ
  d_nwc_pct_revenue : ℚ
  terminal_growth : ℚ
  use_ebitda_margin : Bool := false
  ebitda_margin : Option ℚ := none
deriving Repr, DecidableEq

/-- The three named scenario variants returned by `scenario_presets`
(the source returns the dict with keys "Base", "Bull", "Bear"). -/
structure ScenarioPresets where
  base : Assumptions
  bull : Assumptions
  bear : Assumptions
deriving Repr, DecidableEq

/-- `scenario_presets` from `assumptions.py`: deterministic Bull/Bear
offsets around Base. -/
def scenario_presets (base : Assumptions) : ScenarioPresets :=
  let bull : Assumptions :=
    { years := base.years
      revenue_growth := base.revenue_growth + 0.03
      ebit_margin := min (base.ebit_margin + 0.03) 0.4
      tax_rate := base.tax_rate
      da_pct_revenue := max (base.da_pct_revenue - 0.005) 0
      capex_pct_revenue := max (base.capex_pct_revenue - 0.005) 0
      d_nwc_pct_revenue := max (base.d_nwc_pct_revenue - 0.003) 0
      terminal_growth := base.terminal_growth + 0.005
      use_ebitda_margin := base.use_ebitda_margin
      ebitda_margin :=
        match base.ebitda_margin with
        | some m => some (m + 0.02)
        | none => none }
  let bear : Assumptions :=
    { years := base.years
      revenue_growth := max (base.revenue_growth - 0.03) (-0.1)
      ebit_margin := max (base.ebit_margin - 0.03) 0
      tax_rate := base.tax_rate
      da_pct_revenue := base.da_pct_revenue + 0.005
      capex_pct_revenue := base.capex_pct_revenue + 0.005
      d_nwc_pct_revenue := base.d_nwc_pct_revenue + 0.003
      terminal_growth := max (base.terminal_growth - 0.005) 0
      use_ebitda_margin := base.use_ebitda_margin
      ebitda_margin :=
        match base.ebitda_margin with
        | some m => some (m - 0.02)
        | none => none }
  { base := base, bull := bull, bear := bear }

/-- One row of the forecast table built by `build_forecast`. -/
structure ForecastRow where
  year : ℤ
  revenue : ℚ
  ebit : ℚ
  nopat : ℚ
  da : ℚ
  capex : ℚ
  d_nwc : ℚ
  fcff : ℚ
deriving Repr, DecidableEq

/-- The loop body of `build_forecast`: the row for year `y`, where
`revenue` is this year's (already grown) projected revenue. -/
def forecastRow (a : Assumptions) (y : ℤ) (revenue : ℚ) : ForecastRow :=
  let ebit :=
    if a.use_ebitda_margin then
      match a.ebitda_margin with
      | some em => max (em * revenue - a.da_pct_revenue * revenue) 0
      | none => a.ebit_margin * revenue
    else a.ebit_margin * revenue
  let da := a.da_pct_revenue * revenue
  let nopat := ebit * (1 - a.tax_rate)
  let capex := a.capex_pct_revenue * revenue
  let d_nwc := a.d_nwc_pct_revenue * revenue
  { year := y, revenue := revenue, ebit := ebit, nopat := nopat,
    da := da, capex := capex, d_nwc := d_nwc,
    fcff := nopat + da - capex - d_nwc }

/-- The loop of `build_forecast`: starting at year `y` with prior-year
revenue `rev`, produce `n` more rows, growing revenue before each row. -/
def buildForecastAux (a : Assumptions) (y : ℤ) (rev : ℚ) : ℕ → List ForecastRow
  | 0 => []
  | n + 1 =>
      forecastRow a y (rev * (1 + a.revenue_growth))
        :: buildForecastAux a (y + 1) (rev * (1 + a.revenue_growth)) n

/-- `build_forecast` from `forecast.py`: rows for years
`last_actual_year+1 … +years`, revenue compounding from
`last_actual_revenue`. -/
def build_forecast (last_actual_year : ℤ) (last_actual_revenue : ℚ)
    (a : Assumptions) : List ForecastRow :=
  buildForecastAux a (last_actual_year + 1) last_actual_revenue a.years

/-- Concrete assumption set used by the C2 witness. -/
def c2Assumptions : Assumptions :=
  { years := 3, revenue_growth := 1/10, ebit_margin := 1/5, tax_rate := 1/4,
    da_pct_revenue := 1/25, capex_pct_revenue := 1/20,
    d_nwc_pct_revenue := 1/100, terminal_growth := 1/50 }

/-- Concrete assumption set with EBITDA mode off and a −10% EBIT margin. -/
def c9BadAssumptions : Assumptions :=
  { years := 1, revenue_growth := 0, ebit_margin := -1/10, tax_rate := 0,
    da_pct_revenue := 0, capex_pct_revenue := 0, d_nwc_pct_revenue := 0,
    terminal_growth := 0 }

/-- Concrete EBITDA-mode assumption set used by the C9 witness. -/
def c9Assumptions : Assumptions :=
  { years := 2, revenue_growth := 0, ebit_margin := 0, tax_rate := 0,
    da_pct_revenue := 1/20, capex_pct_revenue := 0, d_nwc_pct_revenue := 0,
    terminal_growth := 0, use_ebitda_margin := true,
    ebitda_margin := some (1/10) }

/-- Concrete Base assumption set whose ΔNWC ratio separates a 0.3pp shift
from a 0.5pp shift. -/
def c5Base : Assumptions :=
  { years := 10, revenue_growth := 1/20, ebit_margin := 1/5, tax_rate := 1/4,
    da_pct_revenue := 1/25, capex_pct_revenue := 1/20,
    d_nwc_pct_revenue := 1/100, terminal_growth := 1/50 }

/-!
## Statement frames and historical metrics (`metrics.py`)

A pandas DataFrame is modelled as a fiscal-year index plus an ordered
association list of named columns; each column holds one `Option ℚ` cell
per index entry.
-/

/-- A year-indexed statement table. -/
structure Frame where
  years : List ℤ
  cols : List (String × List (Option ℚ))
deriving Repr, DecidableEq

/-- Column membership, `name in df.columns`. -/
def Frame.hasCol (f : Frame) (name : String) : Bool :=
  (f.cols.lookup name).isSome

/-- `df.get(name)`: the column when present, `None` otherwise. -/
def Frame.get (f : Frame) (name : String) : Option (List (Option ℚ)) :=
  f.cols.lookup name

/-- The column's cells, defaulting to the empty column when absent. -/
def Frame.colD (f : Frame) (name : String) : List (Option ℚ) :=
  (f.cols.lookup name).getD []

/-- pandas `df.empty`: true when either axis has length 0. -/
def Frame.isEmpty (f : Frame) : Bool :=
  f.years.isEmpty || f.cols.isEmpty

/-- Cell of a column (whose cells are indexed by `years`) at year `y`;
missing labels read as missing cells (the pipeline only selects years
drawn from the frame's own index, where this agrees with `.loc`). -/
def valAt (years : List ℤ) (vs : List (Option ℚ)) (y : ℤ) : Option ℚ :=
  match years.findIdx? (fun z => z == y) with
  | some i => (vs.get? i).join
  | none => none

/-- `df.loc[ys]`: restrict every column to the year labels `ys`. -/
def Frame.loc (f : Frame) (ys : List ℤ) : Frame :=
  { years := ys,
    cols := f.cols.map (fun c => (c.1, ys.map (fun y => valAt f.years c.2 y))) }

/-- `sorted(inc.index)[-lookback:]` (the `if` mirrors the source's
two-branch selection of the most recent years). -/
def lookbackWindow (inc : Frame) (lookback : ℕ) : List ℤ :=
  if inc.years.length > lookback then
    (List.insertionSort (fun a b => a ≤ b) inc.years).drop
      (inc.years.length - lookback)
  else List.insertionSort (fun a b => a ≤ b) inc.years

/-- `cf.loc[years] if not cf.empty else pd.DataFrame(index=years)`. -/
def stmtWindow (f : Frame) (ys : List ℤ) : Frame :=
  if f.isEmpty then { years := ys, cols := [] } else f.loc ys

/-- `np.median` of a non-empty sample: middle of the sorted values, or
the mean of the two middles for an even count. -/
def npMedian (l : List ℚ) : ℚ :=
  let s := List.insertionSort (fun a b => a ≤ b) l
  let n := s.length
  if n % 2 = 1 then s.getD (n / 2) 0
  else (s.getD (n / 2 - 1) 0 + s.getD (n / 2) 0) / 2

/-- `median_over_years` from `metrics.py`: drop missing cells, require at
least `min_years` of them, take the median. -/
def median_over_years (s : List (Option ℚ)) (min_years : ℕ) : Option ℚ :=
  let s' := s.reduceOption
  if s'.length < min_years then none else some (npMedian s')

/-- The guard half of `compute_cagr`: drop missing values, require at
least 3 of them and positive endpoints; returns (first, last, periods). -/
def cagr_params (series : List (Option ℚ)) : Option (ℚ × ℚ × ℕ) :=
  let s := series.reduceOption
  if s.length < 3 then none
  else
    match s.head?, s.getLast? with
    | some st, some en =>
        if st ≤ 0 ∨ en ≤ 0 then none else some (st, en, s.length - 1)
    | _, _ => none

/-- `compute_cagr` from `metrics.py`: `(end/start)^(1/n_periods) - 1`
over the non-missing values, `none` when the guard rejects. -/
noncomputable def compute_cagr (series : List (Option ℚ)) : Option ℝ :=
  (cagr_params series).map
    (fun p => ((p.2.1 : ℝ) / (p.1 : ℝ)) ^ ((1 : ℝ) / (p.2.2 : ℝ)) - 1)

/-- `HistoricalMetrics` dataclass from `metrics.py`. -/
structure HistoricalMetrics where
  revenue_cagr : ℝ
  ebit_margin : ℚ
  ebitda_margin : Option ℚ
  capex_pct_revenue : ℚ
  da_pct_revenue : ℚ
  d_nwc_pct_revenue : ℚ
  lookback_years : ℕ

/-- Median of a per-year ratio, `None` when either series is absent
(the `if x is not None and y is not None` guards in `metrics.py`). -/
def marginOf (num den : Option (List (Option ℚ))) : Option ℚ :=
  match num, den with
  | some n, some d => median_over_years (zipDiv n d) 3
  | _, _ => none

/-- EBITDA margin (EBIT + D&A over revenue), `None` unless EBIT, D&A and
revenue are all available. -/
def ebitdaMarginOf (ebit da revenue : Option (List (Option ℚ))) : Option ℚ :=
  match ebit, da with
  | some e, some d => marginOf (some (zipAdd e d)) revenue
  | _, _ => none

/-- `Series.diff()`: first delta undefined, then pairwise differences. -/
def seriesDiff : List (Option ℚ) → List (Option ℚ)
  | [] => []
  | x :: xs => none :: List.zipWith (fun prev cur => optSub cur prev) (x :: xs) xs

/-- The message logged by the final ΔNWC fallback. -/
def nwcAssumptionMsg : String :=
  "ΔNWC unavailable from cash flow and balance sheet → assume ΔNWC % revenue = 0."

/-- The three-tier ΔNWC resolution of `metrics.py` (value, logged
assumptions): cash-flow `delta_nwc` first, then balance-sheet NWC
differences, else an explicitly logged 0. -/
def dnwcResolve (cf_lb bs_lb : Frame) (revenue : Option (List (Option ℚ))) :
    Option ℚ × List String :=
  match cf_lb.get "delta_nwc", revenue with
  | some dn, some r => (median_over_years (zipDiv dn r) 3, [])
  | _, _ =>
    match bs_lb.get "current_assets", bs_lb.get "current_liabilities", revenue with
    | some ca, some cl, some r =>
        (median_over_years (zipDiv (seriesDiff (zipSub ca cl)) r) 3, [])
    | _, _, _ => (some 0, [nwcAssumptionMsg])

/-- `compute_historical_metrics` from `metrics.py`;  `none` models the
`ValueError` raised when the revenue column is missing.  The income
columns `pretax_income`, `tax_expense` and `net_income` are fetched by
the source but never used, so they are not read here.  The source's
`min_years` parameter is accepted but unused (every median call uses
the `median_over_years` default of 3). -/
noncomputable def compute_historical_metrics (inc cf bs : Frame)
    (lookback min_years : ℕ) : Option (HistoricalMetrics × List String) :=
  if inc.hasCol "revenue" then
    let years := lookbackWindow inc lookback
    let inc_lb := inc.loc years
    let cf_lb := stmtWindow cf years
    let bs_lb := stmtWindow bs years
    let revenue := inc_lb.get "revenue"
    let ebit := inc_lb.get "operating_income"
    let da := cf_lb.get "da"
    let capex := cf_lb.get "capex"
    let ebit_margin := marginOf ebit revenue
    let ebitda_margin := ebitdaMarginOf ebit da revenue
    let capex_pct := marginOf capex revenue
    let da_pct := marginOf da revenue
    let dnwc := dnwcResolve cf_lb bs_lb revenue
    let rev_cagr := revenue.bind compute_cagr
    some ({ revenue_cagr := rev_cagr.getD 0,
            ebit_margin := ebit_margin.getD 0,
            ebitda_margin := ebitda_margin,
            capex_pct_revenue := capex_pct.getD 0,
            da_pct_revenue := da_pct.getD 0,
            d_nwc_pct_revenue := dnwc.1.getD 0,
            lookback_years := years.length }, dnwc.2)
  else none

/-- The year-over-year NWC deltas without the undefined first entry. -/
def pairDiffs (l : List (Option ℚ)) : List (Option ℚ) :=
  List.zipWith (fun prev cur => optSub cur prev) l l.tail

/-- Income frame with an empty fiscal-year intersection but the revenue
column present (the shape `align_fiscal_years` produces when the
statements share no year). -/
def c3IncEmpty : Frame := { years := [], cols := [("revenue", [])] }

/-- An entirely empty statement frame. -/
def c3Empty : Frame := { years := [], cols := [] }

/-- Aligned income frame for the C4 witness. -/
def c4Inc : Frame :=
  { years := [2020, 2021, 2022],
    cols := [("revenue", [some 10, some 10, some 10])] }

/-- Aligned cash-flow frame for the C4 witness, with a `delta_nwc`
column. -/
def c4Cf : Frame :=
  { years := [2020, 2021, 2022],
    cols := [("delta_nwc", [some 1, some 2, some 3])] }

/-- Aligned balance-sheet frame for the C4 witness, offering a
balance-sheet ΔNWC alternative that differs from the cash-flow one. -/
def c4Bs : Frame :=
  { years := [2020, 2021, 2022],
    cols := [("current_assets", [some 5, some 5, some 5]),
             ("current_liabilities", [some 1, some 1, some 1])] }

/-!
## Full valuation run (`run_dcf` in `dcf.py`)
-/

/-- `DCFResult` from `dcf.py`.  The sensitivity DataFrame (pivoted on the
25 (wacc, g) sample pairs) is modelled as the list of its 25 cells in
row-major order; `none` cells are the NaN entries. -/
structure DCFResult where
  wacc : ℚ
  pv_fcff : ℚ
  terminal_value : ℚ
  enterprise_value : ℚ
  equity_value : Option ℚ
  intrinsic_per_share : Option ℚ
  shares_outstanding : Option ℚ
  sensitivity : List (ℚ × ℚ × Option ℚ)
deriving Repr, DecidableEq

/-- `np.linspace(a, b, 5)`. -/
def linspace5 (a b : ℚ) : List ℚ :=
  (List.range 5).map (fun i : ℕ => a + (b - a) * (i : ℚ) / 4)

/-- Round to the nearest integer, ties to even (`np.round`). -/
def roundHalfEven (x : ℚ) : ℤ :=
  let f := Int.floor x
  let r := x - f
  if r < 1/2 then f
  else if 1/2 < r then f + 1
  else if f % 2 = 0 then f else f + 1

/-- `np.round(x, 4)`. -/
def round4 (x : ℚ) : ℚ := (roundHalfEven (x * 10000) : ℚ) / 10000

/-- The WACC sample points of the sensitivity grid. -/
def waccRange (wacc : ℚ) : List ℚ :=
  (linspace5 (max (wacc - 0.02) 0.03) (wacc + 0.02)).map round4

/-- The terminal-growth sample points of the sensitivity grid. -/
def gRange (g : ℚ) : List ℚ :=
  (linspace5 (max (g - 0.01) 0) (g + 0.01)).map round4

/-- The `sens_rows` loop of `run_dcf`: one row per (w, g) sample; a cell
is NaN (`none`) exactly when the per-cell try/except catches the
`terminal_gordon` raise. -/
def sensRows (fcff : List ℚ) (wr gr : List ℚ) : List (ℚ × ℚ × Option ℚ) :=
  wr.flatMap (fun w =>
    gr.map (fun g =>
      (w, g,
        (terminal_gordon fcff w g).map
          (fun tv => discount_cashflows fcff w + tv))))

/-- `run_dcf` from `dcf.py`.  `none` models an escaped exception: either
the fatal `terminal_gordon` raise at the main WACC/growth pair, or the
`pivot` raise on duplicate (wacc, g) grid keys.  The advisory
exit-multiple path only logs and is omitted (spec §9 open question). -/
def run_dcf (fcff : List ℚ) (inp : ValuationInputs)
    (equity_weight debt_weight terminal_growth : ℚ)
    (shares_outstanding : Option ℚ) : Option DCFResult :=
  match terminal_gordon fcff (compute_wacc inp equity_weight debt_weight)
      terminal_growth with
  | none => none
  | some tv_gg =>
      if ((sensRows fcff (waccRange (compute_wacc inp equity_weight debt_weight))
            (gRange terminal_growth)).map (fun r => (r.1, r.2.1))).Nodup then
        some { wacc := compute_wacc inp equity_weight debt_weight,
               pv_fcff := discount_cashflows fcff
                 (compute_wacc inp equity_weight debt_weight),
               terminal_value := tv_gg,
               enterprise_value := discount_cashflows fcff
                 (compute_wacc inp equity_weight debt_weight) + tv_gg,
               equity_value :=
                 match inp.net_debt with
                 | some nd =>
                     some (discount_cashflows fcff
                       (compute_wacc inp equity_weight debt_weight) + tv_gg - nd)
                 | none => none,
               intrinsic_per_share :=
                 match inp.net_debt, shares_outstanding with
                 | some nd, some s =>
                     if 0 < s then
                       some ((discount_cashflows fcff
                         (compute_wacc inp equity_weight debt_weight) + tv_gg - nd) / s)
                     else none
                 | _, _ => none,
               shares_outstanding := shares_outstanding,
               sensitivity := sensRows fcff
                 (waccRange (compute_wacc inp equity_weight debt_weight))
                 (gRange terminal_growth) }
      else none

/-- Valuation inputs used by the C7/C10 witnesses (net debt unknown). -/
def c7Inp : ValuationInputs :=
  { rf := 0.04, erp := 0.05, beta := 1, cost_of_debt := 0.06, tax_rate := 0.25 }

/-!
## Statement normalizer (`data_loader.py`)
-/

/-- The income-statement label map of `normalize_income`, in dict
insertion order (a later matching raw label overwrites an earlier one
for the same canonical name). -/
def incomeLabelMap : List (String × String) :=
  [("Total Revenue", "revenue"),
   ("Revenue", "revenue"),
   ("Operating Income", "operating_income"),
   ("EBIT", "operating_income"),
   ("Ebit", "operating_income"),
   ("Income Before Tax", "pretax_income"),
   ("Income Tax Expense", "tax_expense"),
   ("Provision for income taxes", "tax_expense"),
   ("Net Income", "net_income"),
   ("Net Income Common Stockholders", "net_income")]

/-- The cash-flow label map of `normalize_cashflow`. -/
def cashflowLabelMap : List (String × String) :=
  [("Capital Expenditure", "capex"),
   ("Capital Expenditures", "capex"),
   ("CapitalExpenditure", "capex"),
   ("Depreciation", "da"),
   ("Depreciation And Amortization", "da"),
   ("Reconciled Depreciation", "da"),
   ("Operating Cash Flow", "cfo"),
   ("Total Cash From Operating Activities", "cfo"),
   ("Change In Working Capital", "delta_nwc"),
   ("ChangeInWorkingCapital", "delta_nwc")]

/-- `normalized[name] = values`: replace the column in place or append
it, as pandas column assignment does. -/
def setCol : List (String × List (Option ℚ)) → String → List (Option ℚ) →
    List (String × List (Option ℚ))
  | [], n, v => [(n, v)]
  | c :: cs, n, v => if c.1 == n then (n, v) :: cs else c :: setCol cs n v

/-- The label-mapping loop shared by `normalize_income` and
`normalize_cashflow`: for each (raw, canonical) pair in dict order, copy
the raw column when present. -/
def applyLabelMap (m : List (String × String)) (raw : Frame) : Frame :=
  { years := raw.years,
    cols := m.foldl (fun acc p =>
      match raw.get p.1 with
      | some v => setCol acc p.2 v
      | none => acc) [] }

/-- `normalize_income` from `data_loader.py` (`validate_fields` only
logs and is not modelled). -/
def normalize_income (inc : Frame) : Frame :=
  applyLabelMap incomeLabelMap inc

/-- `.abs()` over a column's cells (NaN stays NaN). -/
def absCells (vs : List (Option ℚ)) : List (Option ℚ) :=
  vs.map (fun x => x.map (fun q => |q|))

/-- `normalize_cashflow` from `data_loader.py`: empty input normalizes
to an empty frame; otherwise map labels, then coerce CapEx cells to
their absolute value. -/
def normalize_cashflow (cfr : Frame) : Frame :=
  if cfr.isEmpty then { years := [], cols := [] }
  else
    let normalized := applyLabelMap cashflowLabelMap cfr
    { years := normalized.years,
      cols := normalized.cols.map (fun c =>
        if c.1 == "capex" then (c.1, absCells c.2) else c) }

/-- First present column among an ordered list of label synonyms. -/
def firstPresent (bsr : Frame) : List String → Option (List (Option ℚ))
  | [] => none
  | l :: ls =>
      match bsr.get l with
      | some v => some v
      | none => firstPresent bsr ls

/-- Balance-sheet normalization, step 1: current assets by synonym. -/
def balanceCA (bsr : Frame) : List (String × List (Option ℚ)) :=
  match firstPresent bsr
    ["Total Current Assets", "Current Assets", "CurrentAssets"] with
  | some v => setCol [] "current_assets" v
  | none => []

/-- Step 2: current liabilities by synonym. -/
def balanceCL (bsr : Frame) : List (String × List (Option ℚ)) :=
  match firstPresent bsr
    ["Total Current Liabilities", "Current Liabilities",
     "CurrentLiabilities", "Current Liabilities Net Minority Interest"] with
  | some v => setCol (balanceCA bsr) "current_liabilities" v
  | none => balanceCA bsr

/-- Step 3: cash by synonym. -/
def balanceCash (bsr : Frame) : List (String × List (Option ℚ)) :=
  match firstPresent bsr ["Cash And Cash Equivalents", "Cash"] with
  | some v => setCol (balanceCL bsr) "cash" v
  | none => balanceCL bsr

/-- Step 4: total debt, synthesized from the present short/long-term
components when not directly reported. -/
def balanceDebt (bsr : Frame) : List (String × List (Option ℚ)) :=
  match bsr.get "Total Debt" with
  | some v => setCol (balanceCash bsr) "total_debt" v
  | none =>
      match bsr.get "Short Long Term Debt", bsr.get "Long Term Debt" with
      | some a, some b => setCol (balanceCash bsr) "total_debt" (zipAdd a b)
      | some a, none => setCol (balanceCash bsr) "total_debt" a
      | none, some b => setCol (balanceCash bsr) "total_debt" b
      | none, none => balanceCash bsr

/-- `normalize_balance` from `data_loader.py`: empty input normalizes to
an empty frame; otherwise the four resolution steps above. -/
def normalize_balance (bsr : Frame) : Frame :=
  if bsr.isEmpty then { years := [], cols := [] }
  else { years := bsr.years, cols := balanceDebt bsr }

/-- Raw income frame for the C8 witness (one junk column). -/
def c8Inc : Frame :=
  { years := [2020], cols := [("Total Revenue", [some 10]), ("Junk", [some 1])] }

/-- Raw cash-flow frame for the C8 witness (negative reported CapEx). -/
def c8Cf : Frame :=
  { years := [2020], cols := [("Capital Expenditure", [some (-5)])] }

/-- Raw balance frame for the C8 witness. -/
def c8Bs : Frame :=
  { years := [2020], cols := [("Cash", [some 3]), ("Long Term Debt", [some 7])] }

/-- Canonical income-statement vocabulary. -/
def incomeVocab : List String :=
  ["revenue", "operating_income", "pretax_income", "tax_expense", "net_income"]

/-- Canonical cash-flow vocabulary. -/
def cashflowVocab : List String := ["capex", "da", "cfo", "delta_nwc"]

/-- Canonical balance-sheet vocabulary. -/
def balanceVocab : List String :=
  ["current_assets", "current_liabilities", "cash", "total_debt"]

/-- Closed form of the forecast loop. -/
theorem buildForecastAux_eq_map (a : Assumptions) :
    ∀ (n : ℕ) (y : ℤ) (rev : ℚ),
      buildForecastAux a y rev n =
        (List.range n).map
          (fun i : ℕ =>
            forecastRow a (y + (i : ℤ)) (rev * (1 + a.revenue_growth) ^ (i + 1))) := by
  intro n
  induction n with
  | zero => intro y rev; simp [buildForecastAux]
  | succ m ih =>
      intro y rev
      rw [List.range_succ_eq_map]
      simp only [buildForecastAux, List.map_cons, List.map_map]
      congr 1
      · simp [pow_one]
      · rw [ih (y + 1) (rev * (1 + a.revenue_growth))]
        apply List.map_congr_left
        intro i _
        simp only [Function.comp]
        congr 1
        · push_cast; ring
        · simp only [Nat.succ_eq_add_one]; ring

end DCF

namespace DCF

/-- C1: with at least one forecast row and last FCFF value F, if WACC > g
then `terminal_gordon` returns F·(1+g)/(w−g)/(1+w)^N with N the number of
forecast rows, and if WACC ≤ g it raises a fatal valuation error
(modelled as `none`) instead of returning a value. -/
theorem C1_terminal_gordon (fcff : List ℚ) (wacc g : ℚ) (hne : fcff ≠ []) :
    (g < wacc →
      terminal_gordon fcff wacc g =
        some (fcff.getLast hne * (1 + g) / (wacc - g) / (1 + wacc) ^ fcff.length)) ∧
    (wacc ≤ g → terminal_gordon fcff wacc g = none) := by
  constructor
  · intro hgt
    unfold terminal_gordon
    rw [if_neg (not_le.mpr hgt)]
    rw [List.getLast?_eq_getLast fcff hne]
  · intro hle
    unfold terminal_gordon
    rw [if_pos hle]

/-- C2: `build_forecast` produces exactly N rows keyed by the consecutive
years Y+1 … Y+N in ascending order, and the revenue of the i-th forecast
year (1-based) equals R·(1+g)^i — each year compounds the prior projected
year's revenue. -/
theorem C2_build_forecast (Y : ℤ) (R : ℚ) (a : Assumptions) (hN : 1 ≤ a.years) :
    (build_forecast Y R a).length = a.years ∧
    ∀ i : ℕ, 1 ≤ i → i ≤ a.years →
      ((build_forecast Y R a)[i - 1]?).map (fun r => (r.year, r.revenue)) =
        some (Y + (i : ℤ), R * (1 + a.revenue_growth) ^ i) := by
  unfold build_forecast
  rw [buildForecastAux_eq_map]
  constructor
  · simp
  · intro i h1 hi
    have hlt : i - 1 < a.years := by omega
    rw [List.getElem?_map, List.getElem?_range hlt]
    have he : i - 1 + 1 = i := by omega
    simp only [Option.map_some', forecastRow, he]
    have hy : Y + 1 + ((i - 1 : ℕ) : ℤ) = Y + (i : ℤ) := by omega
    rw [hy]

/-- Witness for C2 at a 3-year horizon with R = 100 and g = 10%. -/
theorem C2_build_forecast_witness :
    1 ≤ c2Assumptions.years ∧
    ((build_forecast 2020 100 c2Assumptions).length = c2Assumptions.years ∧
      ∀ i : ℕ, 1 ≤ i → i ≤ c2Assumptions.years →
        ((build_forecast 2020 100 c2Assumptions)[i - 1]?).map
            (fun r => (r.year, r.revenue)) =
          some (2020 + (i : ℤ), 100 * (1 + c2Assumptions.revenue_growth) ^ i)) :=
  ⟨by decide, C2_build_forecast 2020 100 c2Assumptions (by decide)⟩

/-- C9 counterexample: with EBITDA mode off and a negative EBIT margin,
`build_forecast` produces a row whose ebit is negative (−10 for a −10%
margin on revenue 100 with zero growth), falsifying the claim that the
ebit value is non-negative regardless of margin mode. -/
theorem C9_counterexample :
    ¬ (∀ row ∈ build_forecast 2020 100 c9BadAssumptions, 0 ≤ row.ebit) := by
  intro h
  have h1 := h (forecastRow c9BadAssumptions 2021 (100 * (1 + c9BadAssumptions.revenue_growth)))
    (by simp [build_forecast, buildForecastAux])
  simp only [forecastRow, c9BadAssumptions] at h1
  norm_num at h1

/-- C9 amended: when EBITDA mode is active with a defined EBITDA margin,
every forecast row's EBIT equals EBITDA minus D&A floored at 0 and is
therefore non-negative; in EBIT-margin mode EBIT is margin × revenue,
which is non-negative whenever the margin is non-negative, the last
actual revenue is non-negative and growth is at least −100% (but can go
negative for a negative margin). -/
theorem C9_ebit_floor (Y : ℤ) (R : ℚ) (a : Assumptions) :
    (∀ em : ℚ, a.use_ebitda_margin = true → a.ebitda_margin = some em →
      ∀ row ∈ build_forecast Y R a,
        row.ebit = max (em * row.revenue - a.da_pct_revenue * row.revenue) 0 ∧
        0 ≤ row.ebit) ∧
    ((0 ≤ a.ebit_margin ∧ 0 ≤ R ∧ -1 ≤ a.revenue_growth) →
      ∀ row ∈ build_forecast Y R a, 0 ≤ row.ebit) := by
  constructor
  · intro em hmode hsome row hrow
    unfold build_forecast at hrow
    rw [buildForecastAux_eq_map] at hrow
    simp only [List.mem_map, List.mem_range] at hrow
    obtain ⟨i, _, rfl⟩ := hrow
    refine ⟨by simp [forecastRow, hmode, hsome], ?_⟩
    simp only [forecastRow, hmode, hsome]
    exact le_max_right _ _
  · rintro ⟨hm, hR, hg⟩ row hrow
    unfold build_forecast at hrow
    rw [buildForecastAux_eq_map] at hrow
    simp only [List.mem_map, List.mem_range] at hrow
    obtain ⟨i, _, rfl⟩ := hrow
    have hrev : 0 ≤ R * (1 + a.revenue_growth) ^ (i + 1) :=
      mul_nonneg hR (pow_nonneg (by linarith) _)
    simp only [forecastRow]
    by_cases hu : a.use_ebitda_margin
    · cases hem : a.ebitda_margin with
      | none => simp [hu, hem]; exact mul_nonneg hm hrev
      | some em => simp [hu, hem]
    · simp [hu]; exact mul_nonneg hm hrev

/-- Witness for C9 amended: in EBITDA mode every produced row's EBIT is
the floored EBITDA − D&A and is non-negative. -/
theorem C9_ebit_floor_witness :
    ∀ row ∈ build_forecast 2020 100 c9Assumptions,
      row.ebit = max (1/10 * row.revenue - c9Assumptions.da_pct_revenue * row.revenue) 0 ∧
      0 ≤ row.ebit :=
  (C9_ebit_floor 2020 100 c9Assumptions).1 (1/10) rfl rfl

/-- Column lookup after a per-column transform of an association list. -/
theorem lookup_map_val {β γ : Type} (g : β → γ) (n : String) :
    ∀ l : List (String × β),
      List.lookup n (l.map (fun c => (c.1, g c.2))) = (List.lookup n l).map g := by
  intro l
  induction l with
  | nil => rfl
  | cons hd tl ih =>
      cases h : n == hd.1 <;> simp [List.lookup, h, ih]

/-- `.loc` transforms every present column and preserves absence. -/
theorem Frame.get_loc (f : Frame) (ys : List ℤ) (n : String) :
    (f.loc ys).get n =
      (f.get n).map (fun vs => ys.map (fun y => valAt f.years vs y)) := by
  unfold Frame.loc Frame.get
  exact lookup_map_val (fun vs => List.map (fun y => valAt f.years vs y) ys) n f.cols

/-- `.loc` preserves column membership. -/
theorem Frame.hasCol_loc (f : Frame) (ys : List ℤ) (n : String) :
    (f.loc ys).hasCol n = f.hasCol n := by
  have h := Frame.get_loc f ys n
  unfold Frame.get at h
  unfold Frame.hasCol
  rw [h]
  cases List.lookup n f.cols <;> rfl

/-- A present column is returned by `get`. -/
theorem Frame.get_of_hasCol (f : Frame) (n : String) (h : f.hasCol n = true) :
    f.get n = some (f.colD n) := by
  unfold Frame.hasCol at h
  unfold Frame.get Frame.colD
  cases hl : f.cols.lookup n with
  | none => rw [hl] at h; simp at h
  | some v => simp [hl]

/-- Unfolding `compute_historical_metrics` when the revenue column is
present. -/
theorem compute_historical_metrics_spec (inc cf bs : Frame)
    (lookback min_years : ℕ) (hrev : inc.hasCol "revenue" = true) :
    compute_historical_metrics inc cf bs lookback min_years =
      some
        ({ revenue_cagr :=
             (((inc.loc (lookbackWindow inc lookback)).get "revenue").bind
               compute_cagr).getD 0,
           ebit_margin :=
             (marginOf ((inc.loc (lookbackWindow inc lookback)).get "operating_income")
               ((inc.loc (lookbackWindow inc lookback)).get "revenue")).getD 0,
           ebitda_margin :=
             ebitdaMarginOf
               ((inc.loc (lookbackWindow inc lookback)).get "operating_income")
               ((stmtWindow cf (lookbackWindow inc lookback)).get "da")
               ((inc.loc (lookbackWindow inc lookback)).get "revenue"),
           capex_pct_revenue :=
             (marginOf ((stmtWindow cf (lookbackWindow inc lookback)).get "capex")
               ((inc.loc (lookbackWindow inc lookback)).get "revenue")).getD 0,
           da_pct_revenue :=
             (marginOf ((stmtWindow cf (lookbackWindow inc lookback)).get "da")
               ((inc.loc (lookbackWindow inc lookback)).get "revenue")).getD 0,
           d_nwc_pct_revenue :=
             ((dnwcResolve (stmtWindow cf (lookbackWindow inc lookback))
               (stmtWindow bs (lookbackWindow inc lookback))
               ((inc.loc (lookbackWindow inc lookback)).get "revenue")).1).getD 0,
           lookback_years := (lookbackWindow inc lookback).length },
         (dnwcResolve (stmtWindow cf (lookbackWindow inc lookback))
           (stmtWindow bs (lookbackWindow inc lookback))
           ((inc.loc (lookbackWindow inc lookback)).get "revenue")).2) := by
  unfold compute_historical_metrics
  rw [if_pos hrev]

/-- Every column of a frame restricted to the empty year list is empty. -/
theorem loc_nil_get (f : Frame) (n : String) :
    (f.loc []).get n = none ∨ (f.loc []).get n = some [] := by
  rw [Frame.get_loc]
  cases f.get n <;> simp

/-- Every column of a statement windowed to the empty year list is empty
or absent. -/
theorem window_nil_get (f : Frame) (n : String) :
    (stmtWindow f []).get n = none ∨ (stmtWindow f []).get n = some [] := by
  unfold stmtWindow
  cases h : f.isEmpty with
  | true => left; simp [h]; rfl
  | false => simp only [h, Bool.false_eq_true, if_false]; exact loc_nil_get f n

/-- A margin over absent or empty series is undefined. -/
theorem marginOf_nil (x y : Option (List (Option ℚ)))
    (hx : x = none ∨ x = some []) : marginOf x y = none := by
  rcases hx with h | h <;> subst h <;> cases y <;> rfl

/-- ΔNWC resolution over absent or empty sources yields 0 after the
downstream default. -/
theorem dnwc_nil (cf_lb bs_lb : Frame)
    (hdn : cf_lb.get "delta_nwc" = none ∨ cf_lb.get "delta_nwc" = some [])
    (hca : bs_lb.get "current_assets" = none ∨
           bs_lb.get "current_assets" = some [])
    (hcl : bs_lb.get "current_liabilities" = none ∨
           bs_lb.get "current_liabilities" = some []) :
    ((dnwcResolve cf_lb bs_lb (some [])).1).getD 0 = 0 := by
  unfold dnwcResolve
  rcases hdn with h1 | h1 <;> rcases hca with h2 | h2 <;>
    rcases hcl with h3 | h3 <;> rw [h1, h2, h3] <;> rfl

/-- C3 counterexample: on an aligned triple with an empty fiscal-year
intersection (income frame has an empty year index but a revenue
column), `compute_historical_metrics` does not raise: it returns a
`HistoricalMetrics` record of zero defaults computed over the empty
frame, with only the ΔNWC fallback assumption logged. -/
theorem C3_counterexample :
    compute_historical_metrics c3IncEmpty c3Empty c3Empty 5 3 =
      some ({ revenue_cagr := 0, ebit_margin := 0, ebitda_margin := none,
              capex_pct_revenue := 0, da_pct_revenue := 0,
              d_nwc_pct_revenue := 0, lookback_years := 0 },
            [nwcAssumptionMsg]) := by
  rfl

/-- C3 amended: historical metric computation raises only when the
revenue column is absent from the income frame; whenever the income
frame's year index is empty but its revenue column is present, it
returns (rather than raising) a metrics record of zero defaults —
zero CAGR, zero margins and ratios, undefined EBITDA margin and a zero
lookback count. -/
theorem C3_empty_years (inc cf bs : Frame) (lookback min_years : ℕ)
    (hyears : inc.years = []) (hrev : inc.hasCol "revenue" = true) :
    ∃ lg, compute_historical_metrics inc cf bs lookback min_years =
      some ({ revenue_cagr := 0, ebit_margin := 0, ebitda_margin := none,
              capex_pct_revenue := 0, da_pct_revenue := 0,
              d_nwc_pct_revenue := 0, lookback_years := 0 }, lg) := by
  have hw : lookbackWindow inc lookback = [] := by
    simp [lookbackWindow, hyears]
  rw [compute_historical_metrics_spec inc cf bs lookback min_years hrev, hw]
  have h1 : (inc.loc []).get "revenue" = some [] := by
    rw [Frame.get_loc, Frame.get_of_hasCol inc "revenue" hrev]
    rfl
  have h2 := loc_nil_get inc "operating_income"
  have h3 := window_nil_get cf "da"
  have h4 := window_nil_get cf "capex"
  have h5 := window_nil_get cf "delta_nwc"
  have h6 := window_nil_get bs "current_assets"
  have h7 := window_nil_get bs "current_liabilities"
  refine ⟨(dnwcResolve (stmtWindow cf []) (stmtWindow bs [])
    ((inc.loc []).get "revenue")).2, ?_⟩
  simp only [Option.some.injEq, Prod.mk.injEq, HistoricalMetrics.mk.injEq]
  refine ⟨⟨?_, ?_, ?_, ?_, ?_, ?_, rfl⟩, trivial⟩
  · rw [h1]; rfl
  · rw [marginOf_nil _ _ h2]; rfl
  · rcases h2 with h | h <;> rcases h3 with h' | h' <;>
      rw [h1, h, h'] <;> rfl
  · rw [marginOf_nil _ _ h4]; rfl
  · rw [marginOf_nil _ _ h3]; rfl
  · rw [h1]; exact dnwc_nil _ _ h5 h6 h7

/-- Witness for C3 amended at the concrete empty-intersection triple. -/
theorem C3_empty_years_witness :
    c3IncEmpty.years = [] ∧ c3IncEmpty.hasCol "revenue" = true ∧
    ∃ lg, compute_historical_metrics c3IncEmpty c3Empty c3Empty 5 3 =
      some ({ revenue_cagr := 0, ebit_margin := 0, ebitda_margin := none,
              capex_pct_revenue := 0, da_pct_revenue := 0,
              d_nwc_pct_revenue := 0, lookback_years := 0 }, lg) :=
  ⟨rfl, rfl, C3_empty_years c3IncEmpty c3Empty c3Empty 5 3 rfl rfl⟩

/-- An absent column is not returned by `get`. -/
theorem Frame.get_of_not_hasCol (f : Frame) (n : String)
    (h : f.hasCol n = false) : f.get n = none := by
  unfold Frame.hasCol at h
  unfold Frame.get
  cases hl : f.cols.lookup n with
  | none => rfl
  | some v => rw [hl] at h; simp at h

/-- A leading missing cell does not contribute to the median. -/
theorem median_cons_none (z : List (Option ℚ)) (m : ℕ) :
    median_over_years (none :: z) m = median_over_years z m := by
  simp [median_over_years, List.reduceOption]

/-- The balance-sheet ΔNWC median equals the median over the pairwise
deltas with the (undefined) earliest-year delta excluded. -/
theorem median_seriesDiff_tail (l r : List (Option ℚ)) :
    median_over_years (zipDiv (seriesDiff l) r) 3 =
    median_over_years (zipDiv (pairDiffs l) r.tail) 3 := by
  cases l with
  | nil => cases r <;> rfl
  | cons x xs =>
      cases r with
      | nil => simp [median_over_years, zipDiv, seriesDiff, pairDiffs]
      | cons r0 rt =>
          show median_over_years
            (optDiv none r0 ::
              zipDiv (List.zipWith (fun prev cur => optSub cur prev) (x :: xs) xs) rt) 3 = _
          have hd : optDiv none r0 = none := rfl
          rw [hd, median_cons_none]
          rfl

/-- C4: the ΔNWC%-of-revenue metric is resolved in strict order — (1)
the cash-flow `delta_nwc` column wins whenever present, even when a
balance-sheet alternative exists; (2) otherwise, with both
`current_assets` and `current_liabilities` available, the median of the
year-over-year NWC differences over revenue is used, the earliest
year's undefined delta excluded; (3) with neither source available the
metric is exactly 0 and the fallback assumption is logged, never
silently. -/
theorem C4_dnwc_fallback (inc cf bs : Frame) (lookback min_years : ℕ)
    (hrev : inc.hasCol "revenue" = true) :
    ∀ h lg, compute_historical_metrics inc cf bs lookback min_years = some (h, lg) →
      ((stmtWindow cf (lookbackWindow inc lookback)).hasCol "delta_nwc" = true →
        h.d_nwc_pct_revenue =
          (median_over_years
            (zipDiv ((stmtWindow cf (lookbackWindow inc lookback)).colD "delta_nwc")
              ((inc.loc (lookbackWindow inc lookback)).colD "revenue")) 3).getD 0 ∧
        lg = []) ∧
      ((stmtWindow cf (lookbackWindow inc lookback)).hasCol "delta_nwc" = false →
       (stmtWindow bs (lookbackWindow inc lookback)).hasCol "current_assets" = true →
       (stmtWindow bs (lookbackWindow inc lookback)).hasCol "current_liabilities" = true →
        h.d_nwc_pct_revenue =
          (median_over_years
            (zipDiv
              (pairDiffs
                (zipSub
                  ((stmtWindow bs (lookbackWindow inc lookback)).colD "current_assets")
                  ((stmtWindow bs (lookbackWindow inc lookback)).colD "current_liabilities")))
              ((inc.loc (lookbackWindow inc lookback)).colD "revenue").tail) 3).getD 0 ∧
        lg = []) ∧
      ((stmtWindow cf (lookbackWindow inc lookback)).hasCol "delta_nwc" = false →
       ((stmtWindow bs (lookbackWindow inc lookback)).hasCol "current_assets" = false ∨
        (stmtWindow bs (lookbackWindow inc lookback)).hasCol "current_liabilities" = false) →
        h.d_nwc_pct_revenue = 0 ∧ lg = [nwcAssumptionMsg]) := by
  intro h lg heq
  rw [compute_historical_metrics_spec inc cf bs lookback min_years hrev] at heq
  simp only [Option.some.injEq, Prod.mk.injEq] at heq
  obtain ⟨hrec, hlog⟩ := heq
  subst hrec
  subst hlog
  have hrv : (inc.loc (lookbackWindow inc lookback)).get "revenue" =
      some ((inc.loc (lookbackWindow inc lookback)).colD "revenue") :=
    Frame.get_of_hasCol _ _ (by rw [Frame.hasCol_loc]; exact hrev)
  refine ⟨?_, ?_, ?_⟩
  · intro hdn
    have hd := Frame.get_of_hasCol _ _ hdn
    show ((dnwcResolve _ _ _).1.getD 0 = _) ∧ (dnwcResolve _ _ _).2 = []
    unfold dnwcResolve
    rw [hd, hrv]
    exact ⟨rfl, rfl⟩
  · intro hdn hca hcl
    have hd := Frame.get_of_not_hasCol _ _ hdn
    have hca' := Frame.get_of_hasCol _ _ hca
    have hcl' := Frame.get_of_hasCol _ _ hcl
    show ((dnwcResolve _ _ _).1.getD 0 = _) ∧ (dnwcResolve _ _ _).2 = []
    unfold dnwcResolve
    rw [hd, hrv, hca', hcl']
    constructor
    · show (median_over_years (zipDiv (seriesDiff (zipSub _ _)) _) 3).getD 0 = _
      rw [median_seriesDiff_tail]
    · rfl
  · intro hdn hcacl
    have hd := Frame.get_of_not_hasCol _ _ hdn
    show ((dnwcResolve _ _ _).1.getD 0 = 0) ∧ (dnwcResolve _ _ _).2 = [nwcAssumptionMsg]
    unfold dnwcResolve
    rcases hcacl with hc | hc
    · rw [hd, hrv, Frame.get_of_not_hasCol _ _ hc]
      cases hcl2 : (stmtWindow bs (lookbackWindow inc lookback)).get "current_liabilities" <;>
        exact ⟨rfl, rfl⟩
    · rw [hd, hrv, Frame.get_of_not_hasCol _ _ hc]
      cases hca2 : (stmtWindow bs (lookbackWindow inc lookback)).get "current_assets" <;>
        exact ⟨rfl, rfl⟩

/-- Witness for C4: a fully aligned triple where the cash-flow
`delta_nwc` column is present and a differing balance-sheet alternative
exists; the cash-flow tier is used and nothing is logged. -/
theorem C4_dnwc_fallback_witness :
    c4Inc.hasCol "revenue" = true ∧
    ∃ h lg, compute_historical_metrics c4Inc c4Cf c4Bs 5 3 = some (h, lg) ∧
      h.d_nwc_pct_revenue =
        (median_over_years
          (zipDiv ((stmtWindow c4Cf (lookbackWindow c4Inc 5)).colD "delta_nwc")
            ((c4Inc.loc (lookbackWindow c4Inc 5)).colD "revenue")) 3).getD 0 ∧
      lg = [] := by
  refine ⟨rfl, ?_⟩
  have hspec := compute_historical_metrics_spec c4Inc c4Cf c4Bs 5 3 rfl
  exact ⟨_, _, hspec, (C4_dnwc_fallback c4Inc c4Cf c4Bs 5 3 rfl _ _ hspec).1 rfl⟩

/-- C6: `compute_cagr` returns None for fewer than 3 non-missing values
or a non-positive first/last non-missing value, and otherwise
(last/first)^(1/(k−1)) − 1 over the k non-missing values; the series
[100, 110, 121, 133.1] yields exactly 0.10; a None result is
substituted by 0.0 in the returned `HistoricalMetrics`. -/
theorem C6_compute_cagr :
    (∀ series : List (Option ℚ), series.reduceOption.length < 3 →
      compute_cagr series = none) ∧
    (∀ (series : List (Option ℚ)) (st en : ℚ),
      series.reduceOption.head? = some st →
      series.reduceOption.getLast? = some en →
      (st ≤ 0 ∨ en ≤ 0) → compute_cagr series = none) ∧
    (∀ (series : List (Option ℚ)) (st en : ℚ),
      3 ≤ series.reduceOption.length →
      series.reduceOption.head? = some st →
      series.reduceOption.getLast? = some en →
      0 < st → 0 < en →
      compute_cagr series =
        some (((en : ℝ) / (st : ℝ)) ^
          ((1 : ℝ) / ((series.reduceOption.length - 1 : ℕ) : ℝ)) - 1)) ∧
    (compute_cagr [some 100, some 110, some 121, some 133.1] = some (1/10 : ℝ)) ∧
    (∀ (inc cf bs : Frame) (lookback min_years : ℕ)
      (h : HistoricalMetrics) (lg : List String),
      inc.hasCol "revenue" = true →
      compute_historical_metrics inc cf bs lookback min_years = some (h, lg) →
      compute_cagr ((inc.loc (lookbackWindow inc lookback)).colD "revenue") = none →
      h.revenue_cagr = 0) := by
  refine ⟨?_, ?_, ?_, ?_, ?_⟩
  · intro series hlen
    simp only [compute_cagr, cagr_params]
    rw [if_pos hlen]
    rfl
  · intro series st en hh hl hneg
    simp only [compute_cagr, cagr_params]
    rw [hh, hl]
    by_cases h3 : series.reduceOption.length < 3
    · rw [if_pos h3]; rfl
    · rw [if_neg h3]
      simp only [if_pos hneg, Option.map_none']
  · intro series st en hlen hh hl hst hen
    simp only [compute_cagr, cagr_params]
    rw [if_neg (not_lt.mpr hlen), hh, hl]
    have hno : ¬ (st ≤ 0 ∨ en ≤ 0) := by
      push_neg
      exact ⟨hst, hen⟩
    simp [if_neg hno]
  · have hro : ([some 100, some 110, some 121, some (133.1 : ℚ)] :
        List (Option ℚ)).reduceOption = [100, 110, 121, 133.1] := rfl
    have hp : cagr_params [some 100, some 110, some 121, some (133.1 : ℚ)] =
        some (100, 133.1, 3) := by
      simp only [cagr_params, hro]
      rw [if_neg (by decide : ¬ ([100, 110, 121, (133.1:ℚ)] : List ℚ).length < 3)]
      show (if (100:ℚ) ≤ 0 ∨ (133.1:ℚ) ≤ 0 then none
        else some ((100:ℚ), (133.1:ℚ),
          ([100, 110, 121, (133.1:ℚ)] : List ℚ).length - 1)) = _
      rw [if_neg (by norm_num : ¬ ((100:ℚ) ≤ 0 ∨ (133.1:ℚ) ≤ 0))]
      rfl
    simp only [compute_cagr, hp, Option.map_some']
    congr 1
    have h1 : ((133.1 : ℚ) : ℝ) / ((100 : ℚ) : ℝ) = ((11 : ℝ)/10) ^ (3 : ℕ) := by
      push_cast
      norm_num
    rw [h1, ← Real.rpow_natCast ((11 : ℝ)/10) 3,
      ← Real.rpow_mul (by norm_num : (0:ℝ) ≤ 11/10)]
    have h2 : ((3 : ℕ) : ℝ) * ((1 : ℝ) / (((3, (3:ℚ)).1 : ℕ) : ℝ)) = 1 := by
      norm_num
    push_cast
    rw [show (3 : ℝ) * (1 / 3) = 1 by norm_num, Real.rpow_one]
    norm_num
  · intro inc cf bs lookback min_years h lg hrev heq hnone
    rw [compute_historical_metrics_spec inc cf bs lookback min_years hrev] at heq
    simp only [Option.some.injEq, Prod.mk.injEq] at heq
    obtain ⟨hrec, -⟩ := heq
    subst hrec
    show (((inc.loc (lookbackWindow inc lookback)).get "revenue").bind compute_cagr).getD 0 = 0
    rw [Frame.get_of_hasCol _ _ (by rw [Frame.hasCol_loc]; exact hrev)]
    show (compute_cagr _).getD 0 = 0
    rw [hnone]
    rfl

/-- Witness for C6: the series [100, 110, 121] has 3 non-missing points
with positive endpoints and gets the closed-form CAGR. -/
theorem C6_compute_cagr_witness :
    (3 ≤ [some (100:ℚ), some 110, some 121].reduceOption.length ∧
     [some (100:ℚ), some 110, some 121].reduceOption.head? = some 100 ∧
     [some (100:ℚ), some 110, some 121].reduceOption.getLast? = some 121 ∧
     (0:ℚ) < 100 ∧ (0:ℚ) < 121) ∧
    compute_cagr [some (100:ℚ), some 110, some 121] =
      some ((((121 : ℚ) : ℝ) / ((100 : ℚ) : ℝ)) ^
        ((1 : ℝ) /
          (([some (100:ℚ), some 110, some 121].reduceOption.length - 1 : ℕ) : ℝ)) - 1) :=
  ⟨⟨by decide, rfl, rfl, by norm_num, by norm_num⟩,
    C6_compute_cagr.2.2.1 [some (100:ℚ), some 110, some 121] 100 121
      (by decide) rfl rfl (by norm_num) (by norm_num)⟩

/-- The grid keys of the sensitivity rows are the (w, g) product. -/
theorem sensRows_keys (fcff : List ℚ) (wr gr : List ℚ) :
    (sensRows fcff wr gr).map (fun x => (x.1, x.2.1)) = wr.product gr := by
  unfold sensRows List.product
  rw [List.map_flatMap]
  apply congrArg
  funext w
  rw [List.map_map]
  rfl

/-- The sensitivity rows enumerate every (w, g) pair once. -/
theorem sensRows_length (fcff : List ℚ) (wr gr : List ℚ) :
    (sensRows fcff wr gr).length = wr.length * gr.length := by
  have h := congrArg List.length (sensRows_keys fcff wr gr)
  rw [List.length_map] at h
  exact h.trans (List.length_product wr gr)

/-- A repeated growth sample makes the grid keys collide for every WACC
sample. -/
theorem not_nodup_product_dup (l : List ℚ) (hl : l ≠ []) (x : ℚ) (rest : List ℚ) :
    ¬ (l.product (x :: x :: rest)).Nodup := by
  cases l with
  | nil => exact absurd rfl hl
  | cons a as =>
      intro h
      rw [List.product, List.flatMap_cons, List.map_cons, List.map_cons,
        List.cons_append, List.cons_append] at h
      exact (List.nodup_cons.mp h).1 (List.mem_cons_self _ _)

/-- Unfolding `run_dcf` on a successful run. -/
theorem run_dcf_spec (fcff : List ℚ) (inp : ValuationInputs) (ew dw tg : ℚ)
    (shares : Option ℚ) (tv : ℚ)
    (htv : terminal_gordon fcff (compute_wacc inp ew dw) tg = some tv)
    (hnd : ((sensRows fcff (waccRange (compute_wacc inp ew dw)) (gRange tg)).map
      (fun x => (x.1, x.2.1))).Nodup) :
    run_dcf fcff inp ew dw tg shares =
      some { wacc := compute_wacc inp ew dw,
             pv_fcff := discount_cashflows fcff (compute_wacc inp ew dw),
             terminal_value := tv,
             enterprise_value := discount_cashflows fcff (compute_wacc inp ew dw) + tv,
             equity_value :=
               match inp.net_debt with
               | some nd =>
                   some (discount_cashflows fcff (compute_wacc inp ew dw) + tv - nd)
               | none => none,
             intrinsic_per_share :=
               match inp.net_debt, shares with
               | some nd, some s =>
                   if 0 < s then
                     some ((discount_cashflows fcff (compute_wacc inp ew dw) + tv - nd) / s)
                   else none
               | _, _ => none,
             shares_outstanding := shares,
             sensitivity := sensRows fcff (waccRange (compute_wacc inp ew dw))
               (gRange tg) } := by
  unfold run_dcf
  simp only [htv]
  rw [if_pos hnd]

/-- `run_dcf` raises (the pandas pivot rejects duplicate grid keys) when
the sampled grid keys collide. -/
theorem run_dcf_none_of_dup (fcff : List ℚ) (inp : ValuationInputs) (ew dw tg : ℚ)
    (shares : Option ℚ)
    (hdup : ¬ ((sensRows fcff (waccRange (compute_wacc inp ew dw)) (gRange tg)).map
      (fun x => (x.1, x.2.1))).Nodup) :
    run_dcf fcff inp ew dw tg shares = none := by
  unfold run_dcf
  cases htv : terminal_gordon fcff (compute_wacc inp ew dw) tg with
  | none => rfl
  | some tv => simp only [if_neg hdup]

/-- There are always five WACC sample points. -/
theorem waccRange_length (x : ℚ) : (waccRange x).length = 5 := by
  rw [waccRange, List.length_map, linspace5, List.length_map, List.length_range]

/-- There are always five growth sample points. -/
theorem gRange_length (x : ℚ) : (gRange x).length = 5 := by
  rw [gRange, List.length_map, linspace5, List.length_map, List.length_range]

/-- The WACC sample list is never empty. -/
theorem waccRange_ne_nil (x : ℚ) : waccRange x ≠ [] := by
  intro h
  have hl := waccRange_length x
  rw [h] at hl
  exact Nat.noConfusion hl

/-- C7 counterexample: at terminal growth −1% the five growth samples
all collapse to 0.0000, the grid keys collide, the pandas pivot raises,
and `run_dcf` fails — no 25-cell grid is produced — even though the
main Gordon guard (WACC > g) passes. -/
theorem C7_counterexample :
    run_dcf [100] c7Inp 0.7 0.3 (-0.01) none = none ∧
    terminal_gordon [100] (compute_wacc c7Inp 0.7 0.3) (-0.01) ≠ none := by
  constructor
  · apply run_dcf_none_of_dup
    have hg : gRange (-0.01 : ℚ) = [0, 0, 0, 0, 0] := by
      rw [gRange, linspace5, (by decide : List.range 5 = [0, 1, 2, 3, 4])]
      norm_num [round4, roundHalfEven, max_def]
    rw [sensRows_keys, hg]
    apply not_nodup_product_dup
    exact waccRange_ne_nil _
  · unfold terminal_gordon
    rw [if_neg (by norm_num [compute_wacc, c7Inp] :
      ¬ (compute_wacc c7Inp 0.7 0.3 ≤ (-0.01 : ℚ)))]
    simp

/-- C7 amended: whenever `run_dcf` returns a result (which requires the
25 rounded (w, g) grid keys to be pairwise distinct — otherwise the
pivot raises, e.g. at terminal growth −1%), the sensitivity grid has
exactly 5 WACC points (linspace over [max(WACC−0.02, 0.03), WACC+0.02],
rounded to 4 decimals half-to-even) by 5 growth points (linspace over
[max(g−0.01, 0), g+0.01], likewise rounded), 25 cells in all; each cell
with w > g holds the enterprise value recomputed with the same
discounting and Gordon formulas, and each cell with w ≤ g is undefined
instead of raising. -/
theorem C7_sensitivity_grid (fcff : List ℚ) (inp : ValuationInputs)
    (ew dw tg : ℚ) (shares : Option ℚ) (r : DCFResult) (hne : fcff ≠ [])
    (heq : run_dcf fcff inp ew dw tg shares = some r) :
    waccRange (compute_wacc inp ew dw) =
      (linspace5 (max (compute_wacc inp ew dw - 0.02) 0.03)
        (compute_wacc inp ew dw + 0.02)).map round4 ∧
    gRange tg = (linspace5 (max (tg - 0.01) 0) (tg + 0.01)).map round4 ∧
    (waccRange (compute_wacc inp ew dw)).length = 5 ∧
    (gRange tg).length = 5 ∧
    r.sensitivity.length = 25 ∧
    r.sensitivity =
      (waccRange (compute_wacc inp ew dw)).flatMap (fun w =>
        (gRange tg).map (fun g =>
          (w, g,
            if w ≤ g then none
            else some (discount_cashflows fcff w +
              fcff.getLast hne * (1 + g) / (w - g) / (1 + w) ^ fcff.length)))) := by
  have hcell : ∀ w g : ℚ,
      (terminal_gordon fcff w g).map (fun tv => discount_cashflows fcff w + tv) =
        if w ≤ g then none
        else some (discount_cashflows fcff w +
          fcff.getLast hne * (1 + g) / (w - g) / (1 + w) ^ fcff.length) := by
    intro w g
    unfold terminal_gordon
    split_ifs with h
    · rfl
    · rw [List.getLast?_eq_getLast fcff hne]
      rfl
  unfold run_dcf at heq
  cases htv : terminal_gordon fcff (compute_wacc inp ew dw) tg with
  | none => simp only [htv] at heq; exact Option.noConfusion heq
  | some tv =>
      simp only [htv] at heq
      by_cases hnd : ((sensRows fcff (waccRange (compute_wacc inp ew dw))
          (gRange tg)).map (fun x => (x.1, x.2.1))).Nodup
      · rw [if_pos hnd] at heq
        have hr := Option.some.inj heq
        subst hr
        refine ⟨rfl, rfl, waccRange_length _, gRange_length _, ?_, ?_⟩
        · show (sensRows fcff (waccRange (compute_wacc inp ew dw))
            (gRange tg)).length = 25
          rw [sensRows_length, waccRange_length, gRange_length]
        · show sensRows fcff (waccRange (compute_wacc inp ew dw)) (gRange tg) = _
          unfold sensRows
          simp only [hcell]
      · rw [if_neg hnd] at heq
        exact Option.noConfusion heq

/-- Witness for C7 amended: a successful concrete run (WACC = 7.65%,
g = 2%) whose grid really has 25 cells of the stated shape. -/
theorem C7_sensitivity_grid_witness :
    ([100] : List ℚ) ≠ [] ∧
    ∃ r, run_dcf [100] c7Inp 0.7 0.3 0.02 none = some r ∧
      r.sensitivity.length = 25 ∧
      r.sensitivity =
        (waccRange (compute_wacc c7Inp 0.7 0.3)).flatMap (fun w =>
          (gRange (0.02 : ℚ)).map (fun g =>
            (w, g,
              if w ≤ g then none
              else some (discount_cashflows [100] w +
                ([100] : List ℚ).getLast (by decide) * (1 + g) / (w - g) /
                  (1 + w) ^ ([100] : List ℚ).length)))) := by
  have htv : terminal_gordon [100] (compute_wacc c7Inp 0.7 0.3) 0.02 =
      some (100 * (1 + 0.02) / (compute_wacc c7Inp 0.7 0.3 - 0.02) /
        (1 + compute_wacc c7Inp 0.7 0.3) ^ ([100] : List ℚ).length) := by
    unfold terminal_gordon
    rw [if_neg (by norm_num [compute_wacc, c7Inp] :
      ¬ (compute_wacc c7Inp 0.7 0.3 ≤ (0.02 : ℚ)))]
    rfl
  have hwr : waccRange (compute_wacc c7Inp 0.7 0.3) =
      [0.0565, 0.0665, 0.0765, 0.0865, 0.0965] := by
    rw [waccRange, linspace5, (by decide : List.range 5 = [0, 1, 2, 3, 4])]
    norm_num [compute_wacc, c7Inp, round4, roundHalfEven, max_def]
  have hgr : gRange (0.02 : ℚ) = [0.01, 0.015, 0.02, 0.025, 0.03] := by
    rw [gRange, linspace5, (by decide : List.range 5 = [0, 1, 2, 3, 4])]
    norm_num [round4, roundHalfEven, max_def]
  have hnd : ((sensRows [100] (waccRange (compute_wacc c7Inp 0.7 0.3))
      (gRange (0.02 : ℚ))).map (fun x => (x.1, x.2.1))).Nodup := by
    rw [sensRows_keys]
    apply List.Nodup.product
    · rw [hwr]
      norm_num [List.nodup_cons, List.mem_cons]
    · rw [hgr]
      norm_num [List.nodup_cons, List.mem_cons]
  have hrun := run_dcf_spec [100] c7Inp 0.7 0.3 0.02 none _ htv hnd
  have hmain := C7_sensitivity_grid [100] c7Inp 0.7 0.3 0.02 none _
    (by decide) hrun
  exact ⟨by decide, _, hrun, hmain.2.2.2.2.1, hmain.2.2.2.2.2⟩

/-- C10: when net debt is unknown, the returned result has no equity
value and no intrinsic per-share value even when a positive share count
is supplied, while WACC, PV(FCFF), terminal value, enterprise value and
the 25-cell sensitivity grid are still computed; the intrinsic value is
defined only when net debt is known and the share count is positive. -/
theorem C10_net_debt_gating (fcff : List ℚ) (inp : ValuationInputs)
    (ew dw tg : ℚ) (shares : Option ℚ) (r : DCFResult)
    (heq : run_dcf fcff inp ew dw tg shares = some r) :
    (inp.net_debt = none → r.equity_value = none ∧ r.intrinsic_per_share = none) ∧
    (r.wacc = compute_wacc inp ew dw ∧
     r.pv_fcff = discount_cashflows fcff (compute_wacc inp ew dw) ∧
     terminal_gordon fcff (compute_wacc inp ew dw) tg = some r.terminal_value ∧
     r.enterprise_value = r.pv_fcff + r.terminal_value ∧
     r.shares_outstanding = shares ∧
     r.sensitivity.length = 25) ∧
    (r.intrinsic_per_share.isSome = true →
      inp.net_debt.isSome = true ∧ ∃ s, shares = some s ∧ 0 < s) := by
  unfold run_dcf at heq
  cases htv : terminal_gordon fcff (compute_wacc inp ew dw) tg with
  | none => simp only [htv] at heq; exact Option.noConfusion heq
  | some tv =>
      simp only [htv] at heq
      by_cases hnd : ((sensRows fcff (waccRange (compute_wacc inp ew dw))
          (gRange tg)).map (fun x => (x.1, x.2.1))).Nodup
      · rw [if_pos hnd] at heq
        have hr := Option.some.inj heq
        subst hr
        refine ⟨?_, ⟨rfl, rfl, rfl, rfl, rfl, ?_⟩, ?_⟩
        · intro hnone
          constructor
          · show (match inp.net_debt with
              | some nd => some (discount_cashflows fcff (compute_wacc inp ew dw)
                  + tv - nd)
              | none => none) = none
            rw [hnone]
          · show (match inp.net_debt, shares with
              | some nd, some s =>
                  if 0 < s then
                    some ((discount_cashflows fcff (compute_wacc inp ew dw)
                      + tv - nd) / s)
                  else none
              | _, _ => none) = none
            rw [hnone]
        · show (sensRows fcff (waccRange (compute_wacc inp ew dw))
            (gRange tg)).length = 25
          rw [sensRows_length, waccRange_length, gRange_length]
        · intro hips
          rcases hd : inp.net_debt with _ | nd
          · rw [hd] at hips
            rcases hs : shares with _ | s <;> rw [hs] at hips <;> simp at hips
          · rcases hs : shares with _ | s
            · rw [hd, hs] at hips
              simp at hips
            · rw [hd, hs] at hips
              by_cases h0 : 0 < s
              · exact ⟨rfl, s, rfl, h0⟩
              · simp [h0] at hips
      · rw [if_neg hnd] at heq
        exact Option.noConfusion heq

/-- Witness for C10: a run with unknown net debt and 10 shares supplied
still prices the firm but yields no equity or per-share value. -/
theorem C10_net_debt_gating_witness :
    c7Inp.net_debt = none ∧
    ∃ r, run_dcf [100] c7Inp 0.7 0.3 0.02 (some 10) = some r ∧
      r.equity_value = none ∧ r.intrinsic_per_share = none ∧
      r.shares_outstanding = some 10 ∧ r.sensitivity.length = 25 := by
  have htv : terminal_gordon [100] (compute_wacc c7Inp 0.7 0.3) 0.02 =
      some (100 * (1 + 0.02) / (compute_wacc c7Inp 0.7 0.3 - 0.02) /
        (1 + compute_wacc c7Inp 0.7 0.3) ^ ([100] : List ℚ).length) := by
    unfold terminal_gordon
    rw [if_neg (by norm_num [compute_wacc, c7Inp] :
      ¬ (compute_wacc c7Inp 0.7 0.3 ≤ (0.02 : ℚ)))]
    rfl
  have hwr : waccRange (compute_wacc c7Inp 0.7 0.3) =
      [0.0565, 0.0665, 0.0765, 0.0865, 0.0965] := by
    rw [waccRange, linspace5, (by decide : List.range 5 = [0, 1, 2, 3, 4])]
    norm_num [compute_wacc, c7Inp, round4, roundHalfEven, max_def]
  have hgr : gRange (0.02 : ℚ) = [0.01, 0.015, 0.02, 0.025, 0.03] := by
    rw [gRange, linspace5, (by decide : List.range 5 = [0, 1, 2, 3, 4])]
    norm_num [round4, roundHalfEven, max_def]
  have hnd : ((sensRows [100] (waccRange (compute_wacc c7Inp 0.7 0.3))
      (gRange (0.02 : ℚ))).map (fun x => (x.1, x.2.1))).Nodup := by
    rw [sensRows_keys]
    apply List.Nodup.product
    · rw [hwr]
      norm_num [List.nodup_cons, List.mem_cons]
    · rw [hgr]
      norm_num [List.nodup_cons, List.mem_cons]
  have hrun := run_dcf_spec [100] c7Inp 0.7 0.3 0.02 (some 10) _ htv hnd
  have hmain := C10_net_debt_gating [100] c7Inp 0.7 0.3 0.02 (some 10) _ hrun
  exact ⟨rfl, _, hrun, (hmain.1 rfl).1, (hmain.1 rfl).2,
    hmain.2.1.2.2.2.2.1, hmain.2.1.2.2.2.2.2⟩

/-- A column assignment only introduces the assigned name. -/
theorem setCol_mem (n : String) (v : List (Option ℚ)) :
    ∀ (cs : List (String × List (Option ℚ))), ∀ c ∈ setCol cs n v,
      c.1 = n ∨ ∃ c' ∈ cs, c.1 = c'.1 := by
  intro cs
  induction cs with
  | nil =>
      intro c hc
      rw [setCol, List.mem_singleton] at hc
      subst hc
      exact Or.inl rfl
  | cons hd tl ih =>
      intro c hc
      cases h : hd.1 == n with
      | true =>
          simp only [setCol, h, if_true] at hc
          rcases List.mem_cons.mp hc with h1 | h1
          · subst h1; exact Or.inl rfl
          · exact Or.inr ⟨c, List.mem_cons_of_mem _ h1, rfl⟩
      | false =>
          simp only [setCol, h, Bool.false_eq_true, if_false] at hc
          rcases List.mem_cons.mp hc with h1 | h1
          · exact Or.inr ⟨hd, List.mem_cons_self _ _, by rw [h1]⟩
          · rcases ih c h1 with h2 | ⟨c', hc', h3⟩
            · exact Or.inl h2
            · exact Or.inr ⟨c', List.mem_cons_of_mem _ hc', h3⟩

/-- An optional column assignment only introduces the assigned name. -/
theorem mem_setCol_opt (n : String) (o : Option (List (Option ℚ)))
    (cs : List (String × List (Option ℚ))) (c : String × List (Option ℚ))
    (hc : c ∈ (match o with | some v => setCol cs n v | none => cs)) :
    c.1 = n ∨ ∃ c' ∈ cs, c.1 = c'.1 := by
  cases o with
  | none => exact Or.inr ⟨c, hc, rfl⟩
  | some v => exact setCol_mem n v cs c hc

/-- The label-map fold only produces canonical column names. -/
theorem applyLabelMap_cols (raw : Frame) (targets : List String) :
    ∀ (m : List (String × String)) (acc : List (String × List (Option ℚ))),
      (∀ p ∈ m, p.2 ∈ targets) →
      (∀ c ∈ acc, c.1 ∈ targets) →
      ∀ c ∈ m.foldl (fun acc p =>
          match raw.get p.1 with
          | some v => setCol acc p.2 v
          | none => acc) acc, c.1 ∈ targets := by
  intro m
  induction m with
  | nil => intro acc _ hacc c hc; exact hacc c hc
  | cons p ps ih =>
      intro acc hm hacc c hc
      rw [List.foldl_cons] at hc
      refine ih _ (fun q hq => hm q (List.mem_cons_of_mem _ hq)) ?_ c hc
      intro c' hc'
      cases hg : raw.get p.1 with
      | none => rw [hg] at hc'; exact hacc c' hc'
      | some v =>
          rw [hg] at hc'
          rcases setCol_mem p.2 v acc c' hc' with h | ⟨c'', hc'', h⟩
          · rw [h]; exact hm p (List.mem_cons_self _ _)
          · rw [h]; exact hacc c'' hc''

/-- Every column produced by the label-map fold comes from a raw label
that was actually present (no zero-filling). -/
theorem applyLabelMap_prov (raw : Frame) :
    ∀ (m : List (String × String)) (acc : List (String × List (Option ℚ))),
      ∀ c ∈ m.foldl (fun acc p =>
          match raw.get p.1 with
          | some v => setCol acc p.2 v
          | none => acc) acc,
        (∃ c' ∈ acc, c.1 = c'.1) ∨
        ∃ p ∈ m, p.2 = c.1 ∧ raw.hasCol p.1 = true := by
  intro m
  induction m with
  | nil => intro acc c hc; exact Or.inl ⟨c, hc, rfl⟩
  | cons p ps ih =>
      intro acc c hc
      rw [List.foldl_cons] at hc
      rcases ih _ c hc with ⟨c', hc', h⟩ | ⟨q, hq, h1, h2⟩
      · cases hg : raw.get p.1 with
        | none => rw [hg] at hc'; exact Or.inl ⟨c', hc', h⟩
        | some v =>
            rw [hg] at hc'
            rcases setCol_mem p.2 v acc c' hc' with h1 | ⟨c'', hc'', h1⟩
            · refine Or.inr ⟨p, List.mem_cons_self _ _, (h.trans h1).symm, ?_⟩
              unfold Frame.hasCol
              unfold Frame.get at hg
              rw [hg]
              rfl
            · exact Or.inl ⟨c'', hc'', h.trans h1⟩
      · exact Or.inr ⟨q, List.mem_cons_of_mem _ hq, h1, h2⟩

/-- Looking up `capex` after the sign-correcting column map. -/
theorem lookup_capex_absmap (l : List (String × List (Option ℚ))) :
    List.lookup "capex"
      (l.map (fun c => if c.1 == "capex" then (c.1, absCells c.2) else c)) =
      (List.lookup "capex" l).map absCells := by
  induction l with
  | nil => rfl
  | cons hd tl ih =>
      obtain ⟨k, vs⟩ := hd
      by_cases he : k = "capex"
      · subst he
        simp [List.lookup, ih]
      · have h1 : (k == "capex") = false := beq_eq_false_iff_ne.mpr he
        have h2 : ("capex" == k) = false := beq_eq_false_iff_ne.mpr (Ne.symm he)
        simp only [List.map_cons, h1, Bool.false_eq_true, if_false]
        simp only [List.lookup, h2]
        exact ih

/-- Every balance column name is canonical. -/
theorem balanceDebt_names (bsr : Frame) :
    ∀ c ∈ balanceDebt bsr, c.1 ∈ balanceVocab := by
  have hca : ∀ c ∈ balanceCA bsr, c.1 ∈ balanceVocab := by
    intro c hc
    unfold balanceCA at hc
    rcases mem_setCol_opt "current_assets"
        (firstPresent bsr ["Total Current Assets", "Current Assets", "CurrentAssets"])
        [] c hc with h | ⟨c', hc', _⟩
    · rw [h]; simp [balanceVocab]
    · exact absurd hc' (List.not_mem_nil c')
  have hcl : ∀ c ∈ balanceCL bsr, c.1 ∈ balanceVocab := by
    intro c hc
    unfold balanceCL at hc
    rcases mem_setCol_opt "current_liabilities" _ (balanceCA bsr) c hc with h | ⟨c', hc', h⟩
    · rw [h]; simp [balanceVocab]
    · rw [h]; exact hca c' hc'
  have hcash : ∀ c ∈ balanceCash bsr, c.1 ∈ balanceVocab := by
    intro c hc
    unfold balanceCash at hc
    rcases mem_setCol_opt "cash" _ (balanceCL bsr) c hc with h | ⟨c', hc', h⟩
    · rw [h]; simp [balanceVocab]
    · rw [h]; exact hcl c' hc'
  intro c hc
  unfold balanceDebt at hc
  cases h4 : bsr.get "Total Debt" with
  | some v =>
      rw [h4] at hc
      rcases setCol_mem "total_debt" v (balanceCash bsr) c hc with h | ⟨c', hc', h⟩
      · rw [h]; simp [balanceVocab]
      · rw [h]; exact hcash c' hc'
  | none =>
      rw [h4] at hc
      cases h5 : bsr.get "Short Long Term Debt" with
      | some a =>
          rw [h5] at hc
          cases h6 : bsr.get "Long Term Debt" with
          | some b =>
              rw [h6] at hc
              rcases setCol_mem "total_debt" (zipAdd a b) (balanceCash bsr) c hc with
                h | ⟨c', hc', h⟩
              · rw [h]; simp [balanceVocab]
              · rw [h]; exact hcash c' hc'
          | none =>
              rw [h6] at hc
              rcases setCol_mem "total_debt" a (balanceCash bsr) c hc with h | ⟨c', hc', h⟩
              · rw [h]; simp [balanceVocab]
              · rw [h]; exact hcash c' hc'
      | none =>
          rw [h5] at hc
          cases h6 : bsr.get "Long Term Debt" with
          | some b =>
              rw [h6] at hc
              rcases setCol_mem "total_debt" b (balanceCash bsr) c hc with h | ⟨c', hc', h⟩
              · rw [h]; simp [balanceVocab]
              · rw [h]; exact hcash c' hc'
          | none =>
              rw [h6] at hc
              exact hcash c hc

/-- C8: every column of a normalized income, cash-flow or balance
statement is canonical, each such column comes from a raw label that was
present (absent labels are omitted, never zero-filled), and every
present value of the normalized CapEx column is non-negative. -/
theorem C8_canonical_columns (rawInc rawCf rawBs : Frame) :
    (∀ c ∈ (normalize_income rawInc).cols,
      c.1 ∈ incomeVocab ∧
      ∃ p ∈ incomeLabelMap, p.2 = c.1 ∧ rawInc.hasCol p.1 = true) ∧
    (∀ c ∈ (normalize_cashflow rawCf).cols,
      c.1 ∈ cashflowVocab ∧
      ∃ p ∈ cashflowLabelMap, p.2 = c.1 ∧ rawCf.hasCol p.1 = true) ∧
    (∀ c ∈ (normalize_balance rawBs).cols, c.1 ∈ balanceVocab) ∧
    (∀ x ∈ (normalize_cashflow rawCf).colD "capex", ∀ q : ℚ, x = some q → 0 ≤ q) := by
  refine ⟨?_, ?_, ?_, ?_⟩
  · intro c hc
    constructor
    · exact applyLabelMap_cols rawInc incomeVocab incomeLabelMap []
        (by decide) (fun c' hc' => absurd hc' (List.not_mem_nil c')) c hc
    · rcases applyLabelMap_prov rawInc incomeLabelMap [] c hc with ⟨c', hc', _⟩ | h
      · exact absurd hc' (List.not_mem_nil c')
      · exact h
  · intro c hc
    unfold normalize_cashflow at hc
    by_cases he : rawCf.isEmpty = true
    · rw [if_pos he] at hc
      exact absurd hc (List.not_mem_nil c)
    · rw [if_neg he] at hc
      rcases List.mem_map.mp hc with ⟨c0, hc0, hfc⟩
      have hname : c.1 = c0.1 := by
        by_cases hx : c0.1 == "capex"
        · rw [← hfc]; simp [hx]
        · rw [← hfc]; simp [hx]
      rw [hname]
      constructor
      · exact applyLabelMap_cols rawCf cashflowVocab cashflowLabelMap []
          (by decide) (fun c' hc' => absurd hc' (List.not_mem_nil c')) c0 hc0
      · rcases applyLabelMap_prov rawCf cashflowLabelMap [] c0 hc0 with ⟨c', hc', _⟩ | h
        · exact absurd hc' (List.not_mem_nil c')
        · exact h
  · intro c hc
    unfold normalize_balance at hc
    by_cases he : rawBs.isEmpty = true
    · rw [if_pos he] at hc
      exact absurd hc (List.not_mem_nil c)
    · rw [if_neg he] at hc
      exact balanceDebt_names rawBs c hc
  · intro x hx q hq
    unfold normalize_cashflow at hx
    by_cases he : rawCf.isEmpty = true
    · rw [if_pos he] at hx
      exact absurd hx (List.not_mem_nil x)
    · rw [if_neg he] at hx
      unfold Frame.colD at hx
      rw [lookup_capex_absmap] at hx
      cases hl : List.lookup "capex" (applyLabelMap cashflowLabelMap rawCf).cols with
      | none => rw [hl] at hx; exact absurd hx (List.not_mem_nil x)
      | some vs =>
          rw [hl] at hx
          rcases List.mem_map.mp hx with ⟨y, _, hy⟩
          cases y with
          | none => rw [← hy] at hq; exact Option.noConfusion hq
          | some a =>
              rw [← hy] at hq
              have : q = |a| := (Option.some.inj hq).symm
              rw [this]
              exact abs_nonneg a

/-- Witness for C8 at concrete raw frames with a junk income column, a
negative reported CapEx and a synthesizable total debt. -/
theorem C8_canonical_columns_witness :
    (∀ c ∈ (normalize_income c8Inc).cols,
      c.1 ∈ incomeVocab ∧
      ∃ p ∈ incomeLabelMap, p.2 = c.1 ∧ c8Inc.hasCol p.1 = true) ∧
    (∀ c ∈ (normalize_cashflow c8Cf).cols,
      c.1 ∈ cashflowVocab ∧
      ∃ p ∈ cashflowLabelMap, p.2 = c.1 ∧ c8Cf.hasCol p.1 = true) ∧
    (∀ c ∈ (normalize_balance c8Bs).cols, c.1 ∈ balanceVocab) ∧
    (∀ x ∈ (normalize_cashflow c8Cf).colD "capex", ∀ q : ℚ, x = some q → 0 ≤ q) :=
  C8_canonical_columns c8Inc c8Cf c8Bs

/-- A max with a floor, written as the conditional the spec describes. -/
theorem max_eq_ite (x f : ℚ) : max x f = if f ≤ x then x else f := by
  rw [max_def]
  split_ifs with h1 h2 h3 <;> first | rfl | linarith

/-- C5 counterexample: for a Base set with ΔNWC% = 1%, Bull's ΔNWC% is
0.7% (a 0.3pp shift), not the 0.5% that the claimed 0.5pp shift
(floored at 0) would give. -/
theorem C5_counterexample :
    (scenario_presets c5Base).bull.d_nwc_pct_revenue = 0.007 ∧
    max (c5Base.d_nwc_pct_revenue - 0.005) 0 = 0.005 ∧
    (0.007 : ℚ) ≠ 0.005 := by
  refine ⟨?_, ?_, by norm_num⟩
  · norm_num [scenario_presets, c5Base]
  · norm_num [max_def, c5Base]

/-- C5 amended: Bull adds +3pp revenue growth, +3pp EBIT margin capped at
40%, subtracts 0.5pp from D&A% and CapEx% (floored at 0%) but 0.3pp from
ΔNWC% (floored at 0%), adds +0.5pp terminal growth and +2pp EBITDA margin
when defined; Bear applies the mirrored opposite shifts (so +0.3pp ΔNWC%)
with revenue growth floored at −10%, EBIT margin floored at 0% and
terminal growth floored at 0%; tax rate and horizon are unchanged in both
variants. -/
theorem C5_scenario_presets (b : Assumptions) :
    (scenario_presets b).base = b ∧
    ((scenario_presets b).bull.years = b.years ∧
     (scenario_presets b).bull.revenue_growth = b.revenue_growth + 0.03 ∧
     (scenario_presets b).bull.ebit_margin =
       (if b.ebit_margin + 0.03 ≤ 0.4 then b.ebit_margin + 0.03 else (0.4 : ℚ)) ∧
     (scenario_presets b).bull.tax_rate = b.tax_rate ∧
     (scenario_presets b).bull.da_pct_revenue =
       (if 0 ≤ b.da_pct_revenue - 0.005 then b.da_pct_revenue - 0.005 else 0) ∧
     (scenario_presets b).bull.capex_pct_revenue =
       (if 0 ≤ b.capex_pct_revenue - 0.005 then b.capex_pct_revenue - 0.005 else 0) ∧
     (scenario_presets b).bull.d_nwc_pct_revenue =
       (if 0 ≤ b.d_nwc_pct_revenue - 0.003 then b.d_nwc_pct_revenue - 0.003 else 0) ∧
     (scenario_presets b).bull.terminal_growth = b.terminal_growth + 0.005 ∧
     (scenario_presets b).bull.use_ebitda_margin = b.use_ebitda_margin ∧
     (scenario_presets b).bull.ebitda_margin =
       b.ebitda_margin.map (fun m => m + 0.02)) ∧
    ((scenario_presets b).bear.years = b.years ∧
     (scenario_presets b).bear.revenue_growth =
       (if -0.1 ≤ b.revenue_growth - 0.03 then b.revenue_growth - 0.03 else (-0.1 : ℚ)) ∧
     (scenario_presets b).bear.ebit_margin =
       (if 0 ≤ b.ebit_margin - 0.03 then b.ebit_margin - 0.03 else 0) ∧
     (scenario_presets b).bear.tax_rate = b.tax_rate ∧
     (scenario_presets b).bear.da_pct_revenue = b.da_pct_revenue + 0.005 ∧
     (scenario_presets b).bear.capex_pct_revenue = b.capex_pct_revenue + 0.005 ∧
     (scenario_presets b).bear.d_nwc_pct_revenue = b.d_nwc_pct_revenue + 0.003 ∧
     (scenario_presets b).bear.terminal_growth =
       (if 0 ≤ b.terminal_growth - 0.005 then b.terminal_growth - 0.005 else 0) ∧
     (scenario_presets b).bear.use_ebitda_margin = b.use_ebitda_margin ∧
     (scenario_presets b).bear.ebitda_margin =
       b.ebitda_margin.map (fun m => m - 0.02)) := by
  obtain ⟨ys, rg, em, tr, da, cx, dn, tg, ue, eb⟩ := b
  refine ⟨rfl, ⟨rfl, rfl, min_def _ _, rfl, max_eq_ite _ 0, max_eq_ite _ 0,
    max_eq_ite _ 0, rfl, rfl, ?_⟩,
    ⟨rfl, max_eq_ite _ _, max_eq_ite _ 0, rfl, rfl, rfl, rfl,
    max_eq_ite _ 0, rfl, ?_⟩⟩
  · cases eb <;> rfl
  · cases eb <;> rfl

/-- Witness for C1: the spec's worked example WACC = 0.09, g = 0.02,
last FCFF = 100 over a single forecast year: TV before the final
discount is 100·1.02/0.07 = 10200/7 ≈ 1457.14, then discounted one
period; and at WACC = g = 0.02 the computation raises. -/
theorem C1_terminal_gordon_witness :
    ((0.02 : ℚ) < 0.09 →
      terminal_gordon [100] 0.09 0.02 =
        some (([100] : List ℚ).getLast (by decide) * (1 + 0.02) / (0.09 - 0.02)
          / (1 + 0.09) ^ ([100] : List ℚ).length)) ∧
    ((0.02 : ℚ) ≤ 0.02 → terminal_gordon [100] 0.02 0.02 = none) :=
  ⟨(C1_terminal_gordon [100] 0.09 0.02 (by decide)).1,
   (C1_terminal_gordon [100] 0.02 0.02 (by decide)).2⟩

end DCF
